import Mathlib

/-!
Shallow embedding of the cinema-bot repository (src/app) and verification of
the frozen claims about its pagination, callback-token and error-handling
behaviour.

The Python source is embedded as executable Lean definitions:
  * `app/db/database.py`  : `get_user_history`, `get_user_stats`
  * `app/bot.py`          : `get_pagination_keyboard` (source name
    `_get_pagination_keyboard`), the message formatters, and
    `handle_pagination`
  * `app/kinopoisk_api.py`: `search_movie`, `get_movie_details` over a small
    JSON value model with Python exception semantics (KeyError / ValueError /
    TypeError / AttributeError).
Machine integers are modelled as `Nat`/`Int` (Python ints are unbounded);
Python floats are modelled as exact rationals (every numeric literal the
claims exercise is exactly representable); fallible Python code returns
`Option`/`Except`.
-/

namespace CinemaBot

/-! ### Python string and number primitives -/

/-- Python whitespace characters stripped by `int(str)` (ASCII subset;
the tokens this program splits never contain other whitespace). -/
def isPyWs (c : Char) : Bool :=
  c = ' ' || c = '\t' || c = '\n' || c = '\r' || c = '\x0b' || c = '\x0c'

/-- Value of an ASCII decimal digit character. -/
def digitVal (c : Char) : Option Nat :=
  if c.isDigit then some (c.toNat - 48) else none

/-- Accumulating decimal read; `none` as soon as a non-digit appears. -/
def decAccum (acc : Nat) : List Char → Option Nat
  | [] => some acc
  | c :: cs => (digitVal c).bind (fun d => decAccum (10 * acc + d) cs)

/-- A non-empty all-digit run read as a natural number
(Python `int` rejects the empty digit run). -/
def digitRun (cs : List Char) : Option Nat :=
  match cs with
  | [] => none
  | _ :: _ => decAccum 0 cs

/-- Strip Python whitespace from both ends. -/
def stripWs (cs : List Char) : List Char :=
  ((cs.dropWhile isPyWs).reverse.dropWhile isPyWs).reverse

/-- Python `int(s)`: strip whitespace, optional sign, non-empty digit run.
Grouping underscores (`int "1_2"`) are not modelled: every string this
program passes to `int` comes out of `str.split "_"` and cannot contain
an underscore. -/
def pyIntCore : List Char → Option Int
  | [] => none
  | c :: rest =>
    if c = '+' then (digitRun rest).map (fun n => (n : Int))
    else if c = '-' then (digitRun rest).map (fun n => -(n : Int))
    else (digitRun (c :: rest)).map (fun n => (n : Int))

def pyInt (s : String) : Option Int := pyIntCore (stripWs s.data)

/-- Decimal digit character of `n < 10`. -/
def decDigit (n : Nat) : Char := Char.ofNat (48 + n)

/-- Decimal digits of a natural number, most significant first (the
rendering Python f-strings use for a nonnegative int).  Structural
recursion on a fuel bound so that the kernel can evaluate it. -/
def natDecCharsAux : Nat → Nat → List Char
  | 0, _ => []
  | fuel + 1, n =>
    if n < 10 then [decDigit n]
    else natDecCharsAux fuel (n / 10) ++ [decDigit (n % 10)]

def natDecChars (n : Nat) : List Char := natDecCharsAux (n + 1) n

/-- Decimal string of a natural number. -/
def natDec (n : Nat) : String := (natDecChars n).asString

/-- Decimal string of an integer, as a Python f-string renders an int. -/
def intDec (i : Int) : String :=
  if i < 0 then "-" ++ natDec i.natAbs else natDec i.toNat

/-- Python `s.split sep` for a one-character separator:
splits on every occurrence, keeping empty segments. -/
def pySplit (sep : Char) (s : String) : List String :=
  (s.data.splitOn sep).map List.asString

/-- Fractional decimal digits of `0 ≤ q < 1`, with fuel (Python float repr
is finite; the ratings this program renders have one decimal digit). -/
def fracDecChars : Nat → ℚ → List Char
  | 0, _ => []
  | fuel + 1, q =>
    if q = 0 then []
    else
      let q10 := q * 10
      decDigit (Int.toNat ⌊q10⌋) :: fracDecChars fuel (q10 - ⌊q10⌋)

/-- Python `str(float)` for the short decimal values this program prints. -/
def pyFloatRepr (q : ℚ) : String :=
  let sign := if q < 0 then "-" else ""
  let a := |q|
  let ip := Int.toNat ⌊a⌋
  let frac := a - ⌊a⌋
  if frac = 0 then sign ++ natDec ip ++ ".0"
  else sign ++ natDec ip ++ "." ++ (fracDecChars 20 frac).asString

/-- Python banker's rounding (`round` rounds half to even). -/
def roundHalfEven (q : ℚ) : Int :=
  let f : Int := ⌊q⌋
  let r := q - f
  if r < 1 / 2 then f
  else if 1 / 2 < r then f + 1
  else if f % 2 = 0 then f else f + 1

/-- Python `round(x, 1)` on the exact-rational float model. -/
def pyRound1 (q : ℚ) : ℚ := (roundHalfEven (q * 10) : ℚ) / 10

/-! ### Data model (`app/db/models.py`) -/

/-- One `search_history` row.  SQLAlchemy `DateTime` rendering is opaque to
every claim, so the timestamp is carried as its already-formatted
`strftime` string. -/
structure SearchHistory where
  id : Nat
  user_id : Nat
  query : String
  movie_id : String
  movie_title : String
  movie_url : Option String
  movie_rating : Option ℚ
  timestamp_str : String
deriving DecidableEq

/-- One aggregated stats row as `get_user_stats` returns it
(the Python dict with the five keys). -/
structure StatRow where
  movie_id : String
  movie_title : String
  movie_url : Option String
  avg_rating : Option ℚ
  search_count : Nat
deriving DecidableEq

/-! ### Store layer (`app/db/database.py`) -/

/-- Insert into a list already sorted descending by `key`, keeping existing
elements of equal key first (stable). -/
def insertDescBy (key : α → Nat) (a : α) : List α → List α
  | [] => [a]
  | x :: xs => if key a ≤ key x then x :: insertDescBy key a xs else a :: x :: xs

/-- Sort descending by `key` (the SQL `ORDER BY key DESC`). -/
def sortDescBy (key : α → Nat) (xs : List α) : List α :=
  xs.foldr (insertDescBy key) []

/-- `max(1, (total_count + per_page - 1) // per_page)` as both store
functions compute it. -/
def totalPagesOf (total_count per_page : Nat) : Nat :=
  max 1 ((total_count + per_page - 1) / per_page)

/-- SQL `OFFSET`/`LIMIT` window.  The offset is an `Int` because the caller
can hand a non-positive page; SQLite treats a negative offset as 0. -/
def sqlWindow (offset : Int) (limit : Nat) (xs : List α) : List α :=
  (xs.drop offset.toNat).take limit

/-- `Database.get_user_history`: count the user's rows, pages from the
invariant, rows ordered by `id` descending, offset `(page-1)*per_page`,
limit `per_page`. -/
def get_user_history (table : List SearchHistory) (user_id : Nat)
    (page : Int) (per_page : Nat) : List SearchHistory × Nat :=
  let rows := table.filter (fun r => r.user_id = user_id)
  let total_count := rows.length
  let total_pages := totalPagesOf total_count per_page
  let offset := (page - 1) * (per_page : Int)
  (sqlWindow offset per_page (sortDescBy (fun r => r.id) rows), total_pages)

/-- Grouping key of the stats aggregation. -/
def statKey (r : SearchHistory) : String × String × Option String :=
  (r.movie_id, r.movie_title, r.movie_url)

/-- Distinct grouping keys in first-occurrence order (SQL `GROUP BY`;
the claims never depend on the order of equal-count groups).  Structural
recursion on a fuel bound so that the kernel can evaluate it. -/
def firstKeysAux : Nat → List SearchHistory → List (String × String × Option String)
  | 0, _ => []
  | _, [] => []
  | fuel + 1, r :: rs =>
    statKey r :: firstKeysAux fuel (rs.filter (fun x => ¬ statKey x = statKey r))

def firstKeys (rows : List SearchHistory) : List (String × String × Option String) :=
  firstKeysAux rows.length rows

/-- One raw aggregate of the stats subquery: key, `AVG(movie_rating)`
(`none` when every rating in the group is NULL, as SQL AVG ignores NULLs),
and `COUNT(*)`. -/
structure RawGroup where
  key : String × String × Option String
  avg : Option ℚ
  count : Nat
deriving DecidableEq

/-- The stats subquery: one `RawGroup` per distinct (movie_id, movie_title,
movie_url) among the user's rows. -/
def statGroups (rows : List SearchHistory) : List RawGroup :=
  (firstKeys rows).map fun k =>
    let grp := rows.filter (fun r => statKey r = k)
    let ratings := grp.filterMap (fun r => r.movie_rating)
    { key := k
      avg := if ratings.isEmpty then none else some (ratings.sum / (ratings.length : ℚ))
      count := grp.length }

/-- The Python row post-processing
`round(float(row.avg_rating), 1) if row.avg_rating else None`:
`row.avg_rating` is falsy both when NULL and when it equals `0.0`. -/
def statRowOfGroup (g : RawGroup) : StatRow :=
  { movie_id := g.key.1
    movie_title := g.key.2.1
    movie_url := g.key.2.2
    avg_rating :=
      match g.avg with
      | none => none
      | some a => if a = 0 then none else some (pyRound1 a)
    search_count := g.count }

/-- `Database.get_user_stats`: group the user's rows by distinct
(movie_id, movie_title, movie_url), pages from the count of groups, groups
ordered by `search_count` descending, windowed, then post-processed. -/
def get_user_stats (table : List SearchHistory) (user_id : Nat)
    (page : Int) (per_page : Nat) : List StatRow × Nat :=
  let rows := table.filter (fun r => r.user_id = user_id)
  let groups := statGroups rows
  let total_count := groups.length
  let total_pages := totalPagesOf total_count per_page
  let offset := (page - 1) * (per_page : Int)
  ((sqlWindow offset per_page (sortDescBy (fun g => g.count) groups)).map statRowOfGroup,
   total_pages)

/-! ### Interaction layer (`app/bot.py`) -/

/-- One inline keyboard button (label text and callback token). -/
structure InlineButton where
  text : String
  callback_data : String
deriving DecidableEq

/-- The pagination token built by `_get_pagination_keyboard`:
the f-string `"pagination_" content_type "_" action "_" current_page`. -/
def paginationCallbackData (content_type action : String) (current_page : Int) : String :=
  "pagination_" ++ content_type ++ "_" ++ action ++ "_" ++ intDec current_page

/-- `CinemaBot._get_pagination_keyboard` (the source name begins with an
underscore): a prev button iff `current_page > 1`, a next button iff
`current_page < total_pages`. -/
def get_pagination_keyboard (content_type : String) (current_page total_pages : Int) :
    List InlineButton :=
  (if current_page > 1 then
    [{ text := "◀️ Назад"
       callback_data := paginationCallbackData content_type "prev" current_page }]
   else []) ++
  (if current_page < total_pages then
    [{ text := "Вперед ▶️"
       callback_data := paginationCallbackData content_type "next" current_page }]
   else [])

/-- `CinemaBot._format_history_message`.  `if item.movie_rating:` and
`if item.movie_url:` are Python truthiness tests, so a `0.0` rating and an
empty URL are skipped like absent ones. -/
def format_history_message (history : List SearchHistory) (current_page : Int)
    (total_pages : Nat) : String :=
  if history.isEmpty then "История поиска пуста"
  else
    "📝 История поиска (страница " ++ intDec current_page ++ " из " ++
      natDec total_pages ++ "):\n\n" ++
    String.join (history.map fun item =>
      "🔍 " ++ item.query ++ "\n" ++
      "🎬 " ++ item.movie_title ++
      (match item.movie_rating with
       | some r => if r = 0 then "" else " (🤩 " ++ pyFloatRepr r ++ ")"
       | none => "") ++ "\n" ++
      (match item.movie_url with
       | some u => if u = "" then "" else "🔗 " ++ u ++ "\n"
       | none => "") ++
      "📅 " ++ item.timestamp_str ++ "\n\n")

/-- `CinemaBot._format_stats_message`, with the same truthiness tests on
`item['avg_rating']` and `item['movie_url']`. -/
def format_stats_message (stats : List StatRow) (current_page : Int)
    (total_pages : Nat) : String :=
  if stats.isEmpty then "Статистика поиска пуста"
  else
    "📊 Статистика поиска (страница " ++ intDec current_page ++ " из " ++
      natDec total_pages ++ "):\n\n" ++
    String.join (stats.map fun item =>
      "🎬 " ++ item.movie_title ++ "\n" ++
      "🔢 Количество поисков: " ++ natDec item.search_count ++ "\n" ++
      (match item.avg_rating with
       | some a => if a = 0 then "" else "🤩 Рейтинг: " ++ pyFloatRepr a ++ "\n"
       | none => "") ++
      (match item.movie_url with
       | some u => if u = "" then "" else "Просмотреть: " ++ u ++ "\n"
       | none => "") ++
      "\n")

/-- The decode step of `handle_pagination` in isolation: split the token on
the underscore, require exactly 4 segments, read the 4th with `int`. -/
def decodePagination (s : String) : Option (String × String × Int) :=
  match pySplit '_' s with
  | [_, content_type, action, current_page_str] =>
    (pyInt current_page_str).map (fun p => (content_type, action, p))
  | _ => none

/-- Every exit of `CinemaBot.handle_pagination`, in source order. -/
inductive PagOutcome
  | noMessage       -- callback.message absent: alert, return
  | decodeError     -- segment count ≠ 4: log, silent return
  | pageParseError  -- int() raised ValueError: log, silent return
  | userNotFound    -- store knows no such user: alert, return
  | badContentType  -- content kind neither history nor stats: alert, return
  | emptyContent    -- fetched window empty with total_pages > 0: alert, return
  | edit (text : String) (keyboard : List InlineButton)  -- edit_text + answer
deriving DecidableEq

/-- The `callback.answer(..., show_alert=True)` text each exit shows;
`none` for the silent exits and for the normal edit path. -/
def transientNotice : PagOutcome → Option String
  | .noMessage => some "Сообщение не найдено"
  | .decodeError => none
  | .pageParseError => none
  | .userNotFound => some "Пользователь не найден"
  | .badContentType => some "Ошибка при получении контента"
  | .emptyContent => some "Ошибка при получении контента"
  | .edit _ _ => none

/-- The part of `CinemaBot.handle_pagination` below the `split("_")` call,
factored over the segment list so the 4-segment check can be analysed by
cases: the source's segment-count check, `int()` parse, user lookup,
`new_page` step and fetch/render, in source order. -/
def handlePagParts (parts : List String) (user : Option Nat)
    (table : List SearchHistory) : PagOutcome :=
  match parts with
  | [_, content_type, action, current_page_str] =>
    match pyInt current_page_str with
    | none => .pageParseError
    | some current_page =>
      match user with
      | none => .userNotFound
      | some uid =>
        let new_page := if action = "next" then current_page + 1 else current_page - 1
        if content_type = "history" then
          let res := get_user_history table uid new_page 5
          let text := format_history_message res.1 new_page res.2
          if res.1.isEmpty ∧ 0 < res.2 then .emptyContent
          else .edit text (get_pagination_keyboard content_type new_page (res.2 : Int))
        else if content_type = "stats" then
          let res := get_user_stats table uid new_page 5
          let text := format_stats_message res.1 new_page res.2
          if res.1.isEmpty ∧ 0 < res.2 then .emptyContent
          else .edit text (get_pagination_keyboard content_type new_page (res.2 : Int))
        else .badContentType
  | _ => .decodeError

/-- `CinemaBot.handle_pagination`, state passed explicitly: `hasMessage` is
the `callback.message` presence test, `callbackData` is `callback.data`
(the source defaults `None` to `""` via `or`), `user` is the result of the
`get_user_by_telegram_id` lookup and `table` the search_history rows. -/
def handle_pagination (hasMessage : Bool) (callbackData : Option String)
    (user : Option Nat) (table : List SearchHistory) : PagOutcome :=
  if !hasMessage then .noMessage
  else handlePagParts (pySplit '_' (callbackData.getD "")) user table

/-! ### Catalog client (`app/kinopoisk_api.py`) -/

/-- A parsed JSON value, as `response.json()` hands it to the client. -/
inductive JVal
  | null
  | bool (b : Bool)
  | num (q : ℚ)
  | str (s : String)
  | arr (xs : List JVal)
  | obj (fields : List (String × JVal))

/-- The Python exception classes the client code can raise or catch. -/
inductive PyErr
  | keyError
  | valueError
  | typeError
  | attributeError
deriving DecidableEq

/-- First binding of a key in a JSON object (Python dict keys are unique). -/
def jLookup (fields : List (String × JVal)) (k : String) : Option JVal :=
  match fields with
  | [] => none
  | (k2, v) :: rest => if k2 = k then some v else jLookup rest k

/-- Python `x[k]` with a string key: KeyError when the key is missing,
TypeError when `x` is not a dict. -/
def subscript (v : JVal) (k : String) : Except PyErr JVal :=
  match v with
  | .obj fs =>
    match jLookup fs k with
    | some x => .ok x
    | none => .error .keyError
  | _ => .error .typeError

/-- Python `x.get(k, default)`: AttributeError when `x` is not a dict. -/
def dictGet (v : JVal) (k : String) (dflt : JVal) : Except PyErr JVal :=
  match v with
  | .obj fs => .ok ((jLookup fs k).getD dflt)
  | _ => .error .attributeError

/-- Python truthiness of a JSON value. -/
def truthy : JVal → Bool
  | .null => false
  | .bool b => b
  | .num q => decide (q ≠ 0)
  | .str s => decide (s ≠ "")
  | .arr xs => !xs.isEmpty
  | .obj fs => !fs.isEmpty

/-- Python `for x in v`: lists iterate elements, strings iterate their
characters, dicts iterate their keys; other values raise TypeError. -/
def pyIter : JVal → Except PyErr (List JVal)
  | .arr xs => .ok xs
  | .str s => .ok (s.data.map (fun c => .str (String.mk [c])))
  | .obj fs => .ok (fs.map (fun f => .str f.1))
  | _ => .error .typeError

/-- `float(s)` for a plain decimal literal (the exponent, inf and nan forms
are not modelled; no claim exercises them). -/
def pyFloatOfString (s : String) : Option ℚ :=
  let go : List Char → Option ℚ := fun ds =>
    let ip := ds.takeWhile Char.isDigit
    match ds.dropWhile Char.isDigit with
    | [] => if ip.isEmpty then none else (decAccum 0 ip).map (fun n => (n : ℚ))
    | '.' :: fr =>
      if fr.all Char.isDigit && !(ip.isEmpty && fr.isEmpty) then
        some (((decAccum 0 ip).getD 0 : ℚ) +
          ((decAccum 0 fr).getD 0 : ℚ) / (10 : ℚ) ^ fr.length)
      else none
    | _ => none
  match stripWs s.data with
  | '+' :: rest => go rest
  | '-' :: rest => (go rest).map Neg.neg
  | cs => go cs

/-- Python `float(x)`: TypeError on non-numeric kinds, ValueError on an
unparseable string. -/
def pyFloat (v : JVal) : Except PyErr ℚ :=
  match v with
  | .num q => .ok q
  | .bool b => .ok (if b then 1 else 0)
  | .str s =>
    match pyFloatOfString s with
    | some q => .ok q
    | none => .error .valueError
  | _ => .error .typeError

/-- The `MovieInfo` dataclass.  Python performs no runtime type checking of
dataclass fields, so raw JSON values are stored as such; only `rating` is
converted (through `float`) before storage. -/
structure MovieInfo where
  id : JVal
  title : JVal
  original_title : JVal
  year : JVal
  rating : Option ℚ
  poster_url : JVal
  description : JVal
  short_description : JVal
  genres : List JVal
  countries : List JVal
  movie_length : JVal
  age_rating : JVal
  type : JVal
  votes_kp : JVal
  votes_imdb : JVal
  external_id_imdb : JVal

/-- The `MovieInfo(...)` construction that `search_movie` (lines 61-82) and
`get_movie_details` (lines 105-126) share verbatim; field evaluation order
and the exception each access can raise follow the Python source. -/
def movieInfoOfJson (film : JVal) : Except PyErr MovieInfo := do
  let id ← subscript film "id"
  let title ← subscript film "name"
  let original_title ← dictGet film "alternativeName" .null
  let year ← dictGet film "year" .null
  let ratingOuter ← dictGet film "rating" (.obj [])
  let kp ← dictGet ratingOuter "kp" .null
  let rating ←
    if truthy kp then do
      let r1 ← subscript film "rating"
      let r2 ← subscript r1 "kp"
      let f ← pyFloat r2
      pure (some f)
    else pure none
  let posterOpt ← dictGet film "poster" .null
  let poster_url ←
    if truthy posterOpt then do
      let p1 ← subscript film "poster"
      subscript p1 "url"
    else pure .null
  let description ← dictGet film "description" .null
  let short_description ← dictGet film "shortDescription" .null
  let genresRaw ← dictGet film "genres" (.arr [])
  let genresList ← pyIter genresRaw
  let genres ← genresList.mapM (fun g => subscript g "name")
  let countriesRaw ← dictGet film "countries" (.arr [])
  let countriesList ← pyIter countriesRaw
  let countries ← countriesList.mapM (fun c => subscript c "name")
  let movie_length ← dictGet film "movieLength" .null
  let age_rating ← dictGet film "ageRating" .null
  let type ← dictGet film "type" (.str "movie")
  let votesOpt ← dictGet film "votes" .null
  let votes_kp ←
    if truthy votesOpt then do
      let v1 ← subscript film "votes"
      subscript v1 "kp"
    else pure (.num 0)
  let votes_imdb ←
    if truthy votesOpt then do
      let v1 ← subscript film "votes"
      subscript v1 "imdb"
    else pure (.num 0)
  let extOpt ← dictGet film "externalId" .null
  let external_id_imdb ←
    if truthy extOpt then do
      let e1 ← subscript film "externalId"
      subscript e1 "imdb"
    else pure .null
  pure { id, title, original_title, year, rating, poster_url, description,
         short_description, genres, countries, movie_length, age_rating,
         type, votes_kp, votes_imdb, external_id_imdb }

/-- Outcome of the HTTP call underneath either client function. -/
inductive HttpResult
  | clientFailure                          -- aiohttp.ClientError was raised
  | response (status : Nat) (body : JVal)  -- status code and parsed JSON body

/-- The record loop of `search_movie`: its per-record
`except (KeyError, ValueError): continue` skips a record failing with
either of those two classes; any other exception leaves the loop. -/
def collectMovies : List JVal → Except PyErr (List MovieInfo)
  | [] => .ok []
  | film :: rest =>
    match movieInfoOfJson film with
    | .ok m => (collectMovies rest).map (fun ms => m :: ms)
    | .error e =>
      if e = .keyError ∨ e = .valueError then collectMovies rest
      else .error e

/-- `KinopoiskAPI.search_movie`: the enclosing try catches only
`aiohttp.ClientError` (giving `[]`), a non-200 status gives `[]`, and the
parsed body is walked with Python's access semantics. -/
def search_movie (resp : HttpResult) : Except PyErr (List MovieInfo) :=
  match resp with
  | .clientFailure => .ok []
  | .response status data =>
    if status ≠ 200 then .ok []
    else do
      let docs ← dictGet data "docs" (.arr [])
      let films ← pyIter docs
      collectMovies films

/-- `KinopoiskAPI.get_movie_details`: transport failure and non-200 give
`None`; the inner try converts KeyError/ValueError during record
construction to `None`; other exceptions leave the function. -/
def get_movie_details (resp : HttpResult) : Except PyErr (Option MovieInfo) :=
  match resp with
  | .clientFailure => .ok none
  | .response status film =>
    if status ≠ 200 then .ok none
    else
      match movieInfoOfJson film with
      | .ok m => .ok (some m)
      | .error e =>
        if e = .keyError ∨ e = .valueError then .ok none
        else .error e

/-! ### Handler boundary model (exception containment in `app/bot.py`) -/

/-- An arbitrary unexpected runtime fault (a Python `Exception`) raised by
an awaited call inside a handler. -/
inductive PyFault
  | fault (msg : String)
deriving DecidableEq

/-- Python `str(x)` as an f-string renders the JSON-modelled values this
program interpolates (strings and numbers in practice). -/
def pyStr : JVal → String
  | .null => "None"
  | .bool b => if b then "True" else "False"
  | .num q => if q.den = 1 then intDec q.num else pyFloatRepr q
  | .str s => s
  | .arr _ => "[...]"
  | .obj _ => "\x7b...\x7d"

/-- Python `x == "lit"` for a JSON value: equal exactly when `x` is that
string (values of other kinds compare unequal without error). -/
def jIsStr (v : JVal) (s : String) : Bool :=
  match v with
  | .str t => t = s
  | _ => false

/-- The selection-button label built in `handle_search` (lines 81-87). -/
def movieButtonLabel (m : MovieInfo) : String :=
  pyStr m.title ++
  (if truthy m.year then " (" ++ pyStr m.year ++ ")" else "") ++
  (match m.rating with
   | some r => if r = 0 then "" else " 🤩" ++ pyFloatRepr r
   | none => "") ++
  (if jIsStr m.type "tv-series" then " 📺" else "")

/-- What `handle_search` replies with when it completes. -/
inductive SearchReply
  | noUser                                   -- message.from_user is None
  | nothingFound                             -- empty result list
  | selection (buttons : List InlineButton)  -- one button per match (first 5)

/-- `CinemaBot.handle_search` (lines 67-98).  The body has no try/except,
so a fault raised by either awaited call (`_get_or_create_user`, the
catalog search) leaves the handler as an exception (`Except.error`). -/
def handle_search (from_user_present : Bool)
    (getOrCreateUser : Except PyFault Unit)
    (searchResult : Except PyFault (List MovieInfo)) :
    Except PyFault SearchReply :=
  if !from_user_present then .ok .noUser
  else do
    let _ ← getOrCreateUser
    let movies ← searchResult
    if movies.isEmpty then pure .nothingFound
    else pure (.selection ((movies.take 5).map (fun m =>
      { text := movieButtonLabel m, callback_data := "movie_" ++ pyStr m.id })))

/-- Result of running a whole callback handler: its body completed, or the
`except Exception` boundary caught a fault and answered with an alert. -/
inductive Handled (α : Type)
  | completed (a : α)
  | caught (alertText : String)

/-- The `try/except Exception` boundary wrapping the whole body of
`handle_movie_select` (lines 100-195): any fault is logged and converted
into the fixed transient alert. -/
def handle_movie_select_boundary (body : Except PyFault α) : Handled α :=
  match body with
  | .ok a => .completed a
  | .error _ => .caught "Произошла ошибка при получении информации о фильме"

/-- The `try/except Exception` boundary wrapping the whole body of
`handle_pagination` (lines 266-317). -/
def handle_pagination_boundary (body : Except PyFault PagOutcome) : Handled PagOutcome :=
  match body with
  | .ok a => .completed a
  | .error _ => .caught "Произошла ошибка при обновлении контента"

/-! ### Statement helpers and concrete fixtures -/

/-- The exception class a client call left uncaught, if any. -/
def errOf : Except PyErr α → Option PyErr
  | .ok _ => none
  | .error _e => some _e

/-- The value of a client call that raised nothing. -/
def okOf : Except PyErr α → Option α
  | .ok a => some a
  | .error _ => none

/-- Whether a keyboard carries the "previous page" button. -/
def hasPrevButton (kb : List InlineButton) : Bool :=
  kb.any (fun b => b.text = "◀️ Назад")

/-- Whether a keyboard carries the "next page" button. -/
def hasNextButton (kb : List InlineButton) : Bool :=
  kb.any (fun b => b.text = "Вперед ▶️")

/-- A plain history row for user 1 with neither rating nor URL. -/
def histRow (i : Nat) : SearchHistory :=
  { id := i, user_id := 1, query := "q", movie_id := "m", movie_title := "t",
    movie_url := none, movie_rating := none, timestamp_str := "ts" }

/-- Twelve history rows for user 1, ids 1..12 in insertion order. -/
def table12 : List SearchHistory := (List.range 12).map (fun i => histRow (i + 1))

/-- A history row for user 1 referencing one fixed movie, with a rating. -/
def ratedRow (i : Nat) (r : ℚ) : SearchHistory :=
  { id := i, user_id := 1, query := "q", movie_id := "325", movie_title := "T",
    movie_url := some "u", movie_rating := some r, timestamp_str := "ts" }

/-- Two rows for the same movie with ratings 7.0 and 8.0. -/
def tableDup : List SearchHistory := [ratedRow 1 7, ratedRow 2 8]

/-- One row whose rating is exactly 0.0. -/
def tableZero : List SearchHistory := [ratedRow 1 0]

/-- A well-formed catalog record (id and name present). -/
def goodFilm : JVal := .obj [("id", .num 1), ("name", .str "A")]

/-- A record missing the required "name" field (KeyError on parse). -/
def badFilm : JVal := .obj [("id", .num 2)]

/-! ### Unfolding the fuel-based recursions -/

theorem natDecCharsAux_congr (n : Nat) : ∀ f1 f2, n < f1 → n < f2 →
    natDecCharsAux f1 n = natDecCharsAux f2 n := by
  induction n using Nat.strong_induction_on with
  | _ n ih =>
    intro f1 f2 h1 h2
    cases f1 with
    | zero => omega
    | succ g1 =>
      cases f2 with
      | zero => omega
      | succ g2 =>
        rw [natDecCharsAux, natDecCharsAux]
        by_cases h10 : n < 10
        · rw [if_pos h10, if_pos h10]
        · have hdiv : n / 10 < n := Nat.div_lt_self (by omega) (by omega)
          rw [if_neg h10, if_neg h10,
            ih (n / 10) hdiv g1 g2 (by omega) (by omega)]

theorem natDecChars_unfold (n : Nat) :
    natDecChars n = if n < 10 then [decDigit n]
      else natDecChars (n / 10) ++ [decDigit (n % 10)] := by
  unfold natDecChars
  rw [natDecCharsAux]
  by_cases h10 : n < 10
  · rw [if_pos h10, if_pos h10]
  · have hdiv : n / 10 < n := Nat.div_lt_self (by omega) (by omega)
    rw [if_neg h10, if_neg h10,
      natDecCharsAux_congr (n / 10) n (n / 10 + 1) (by omega) (by omega)]

theorem firstKeysAux_congr (f1 : Nat) : ∀ f2 rows, rows.length ≤ f1 →
    rows.length ≤ f2 → firstKeysAux f1 rows = firstKeysAux f2 rows := by
  induction f1 with
  | zero =>
    intro f2 rows h1 h2
    have hr : rows = [] := List.length_eq_zero.1 (by omega)
    subst hr
    cases f2 <;> rfl
  | succ g ih =>
    intro f2 rows h1 h2
    cases rows with
    | nil => cases f2 <;> rfl
    | cons r rs =>
      cases f2 with
      | zero => simp at h2
      | succ g2 =>
        rw [firstKeysAux, firstKeysAux]
        have hle : (rs.filter (fun x => ¬ statKey x = statKey r)).length ≤ rs.length :=
          List.length_filter_le _ _
        simp only [List.length_cons] at h1 h2
        rw [ih g2 _ (by omega) (by omega)]

theorem firstKeys_unfold (r : SearchHistory) (rs : List SearchHistory) :
    firstKeys (r :: rs) =
      statKey r :: firstKeys (rs.filter (fun x => ¬ statKey x = statKey r)) := by
  unfold firstKeys
  rw [List.length_cons, firstKeysAux]
  have hle : (rs.filter (fun x => ¬ statKey x = statKey r)).length ≤ rs.length :=
    List.length_filter_le _ _
  rw [firstKeysAux_congr rs.length _ _ hle (le_refl _)]

/-! ### Arithmetic of the page-count invariant -/

theorem one_le_totalPagesOf (c p : Nat) : 1 ≤ totalPagesOf c p :=
  le_max_left 1 _

theorem le_ceilDiv_mul (c p : Nat) (hp : 1 ≤ p) : c ≤ ((c + p - 1) / p) * p := by
  rcases Nat.eq_zero_or_pos c with hc | hc
  · simp [hc]
  · have hstep : (c - 1) / p < (c + p - 1) / p := by
      have he : c + p - 1 = (c - 1) + p := by omega
      rw [he, Nat.add_div_right _ hp]
      omega
    have hlt := (Nat.div_lt_iff_lt_mul hp).1 hstep
    omega

theorem ceilDiv_eq_nat_ceil (c p : Nat) (hp : 1 ≤ p) :
    (c + p - 1) / p = ⌈(c : ℚ) / (p : ℚ)⌉₊ := by
  have hpq : (0 : ℚ) < (p : ℚ) := by exact_mod_cast hp
  refine le_antisymm ?_ ?_
  · have h1 : (c : ℚ) ≤ (p : ℚ) * (⌈(c : ℚ) / (p : ℚ)⌉₊ : ℚ) := by
      calc (c : ℚ) = (p : ℚ) * ((c : ℚ) / (p : ℚ)) := by field_simp
        _ ≤ (p : ℚ) * (⌈(c : ℚ) / (p : ℚ)⌉₊ : ℚ) :=
            mul_le_mul_of_nonneg_left (Nat.le_ceil _) (le_of_lt hpq)
    have h2 : c ≤ p * ⌈(c : ℚ) / (p : ℚ)⌉₊ := by exact_mod_cast h1
    rw [Nat.div_le_iff_le_mul_add_pred hp]
    omega
  · rw [Nat.ceil_le, div_le_iff₀ hpq]
    have h3 := le_ceilDiv_mul c p hp
    exact_mod_cast h3

theorem totalPagesOf_eq_ceil (c p : Nat) (hp : 1 ≤ p) :
    totalPagesOf c p = max 1 ⌈(c : ℚ) / (p : ℚ)⌉₊ := by
  unfold totalPagesOf
  rw [ceilDiv_eq_nat_ceil c p hp]

theorem le_mul_totalPagesOf (c p : Nat) (hp : 1 ≤ p) : c ≤ totalPagesOf c p * p :=
  (le_ceilDiv_mul c p hp).trans
    (Nat.mul_le_mul_right p (le_max_right 1 ((c + p - 1) / p)))

/-! ### Decimal rendering and parsing round-trip -/

theorem digitVal_decDigit (n : Nat) (h : n < 10) : digitVal (decDigit n) = some n := by
  interval_cases n <;> decide

theorem decDigit_props (n : Nat) (h : n < 10) :
    isPyWs (decDigit n) = false ∧ decDigit n ≠ '+' ∧ decDigit n ≠ '-' ∧
      decDigit n ≠ '_' := by
  interval_cases n <;> decide

theorem natDecChars_props (n : Nat) :
    ∀ c ∈ natDecChars n,
      isPyWs c = false ∧ c ≠ '+' ∧ c ≠ '-' ∧ c ≠ '_' := by
  induction n using Nat.strong_induction_on with
  | _ n ih =>
    intro c hc
    rw [natDecChars_unfold] at hc
    split at hc
    · next h =>
      rw [List.mem_singleton] at hc
      exact hc ▸ decDigit_props n h
    · next h =>
      rcases List.mem_append.1 hc with h1 | h1
      · exact ih (n / 10) (Nat.div_lt_self (by omega) (by omega)) c h1
      · rw [List.mem_singleton] at h1
        exact h1 ▸ decDigit_props (n % 10) (Nat.mod_lt _ (by omega))

theorem natDecChars_ne_nil (n : Nat) : natDecChars n ≠ [] := by
  rw [natDecChars_unfold]
  split <;> simp

theorem decAccum_append (acc : Nat) (xs ys : List Char) :
    decAccum acc (xs ++ ys) = (decAccum acc xs).bind (fun a => decAccum a ys) := by
  induction xs generalizing acc with
  | nil => simp [decAccum]
  | cons c cs ih =>
    simp only [List.cons_append, decAccum]
    cases digitVal c with
    | some d => simp [ih]
    | none => simp

theorem decAccum_natDecChars (n : Nat) :
    ∀ acc, decAccum acc (natDecChars n) =
      some (acc * 10 ^ (natDecChars n).length + n) := by
  induction n using Nat.strong_induction_on with
  | _ n ih =>
    intro acc
    rw [natDecChars_unfold]
    split
    · next h =>
      simp only [decAccum, digitVal_decDigit n h, Option.some_bind,
        List.length_singleton, pow_one, Option.some.injEq]
      omega
    · next h =>
      rw [decAccum_append, ih (n / 10) (Nat.div_lt_self (by omega) (by omega)) acc]
      simp only [Option.some_bind, decAccum,
        digitVal_decDigit (n % 10) (Nat.mod_lt _ (by omega)),
        List.length_append, List.length_singleton, pow_succ, Option.some.injEq]
      have hdm := Nat.div_add_mod n 10
      rw [← mul_assoc]
      set A := acc * 10 ^ (natDecChars (n / 10)).length
      omega

theorem digitRun_natDecChars (n : Nat) : digitRun (natDecChars n) = some n := by
  cases h : natDecChars n with
  | nil => exact absurd h (natDecChars_ne_nil n)
  | cons c cs =>
    rw [digitRun, ← h, decAccum_natDecChars n 0]
    simp

theorem dropWhile_eq_self_of_not (p : Char → Bool) (cs : List Char)
    (h : ∀ c ∈ cs, p c = false) : cs.dropWhile p = cs := by
  cases cs with
  | nil => rfl
  | cons c cs' =>
    rw [List.dropWhile_cons, h c (List.mem_cons_self c cs')]
    simp

theorem stripWs_eq_self (cs : List Char) (h : ∀ c ∈ cs, isPyWs c = false) :
    stripWs cs = cs := by
  unfold stripWs
  rw [dropWhile_eq_self_of_not _ _ h,
      dropWhile_eq_self_of_not _ _ (fun c hc => h c (List.mem_reverse.1 hc)),
      List.reverse_reverse]

theorem data_asString (s : String) : (List.asString s.data) = s := by
  cases s
  rfl

theorem asString_data (cs : List Char) : (List.asString cs).data = cs := rfl

theorem pyInt_natDec (n : Nat) : pyInt (natDec n) = some (n : Int) := by
  unfold pyInt natDec
  rw [asString_data,
      stripWs_eq_self _ (fun c hc => (natDecChars_props n c hc).1)]
  cases h : natDecChars n with
  | nil => exact absurd h (natDecChars_ne_nil n)
  | cons c cs =>
    have hprops := natDecChars_props n c (h ▸ List.mem_cons_self c cs)
    rw [pyIntCore, if_neg hprops.2.1, if_neg hprops.2.2.1, ← h,
        digitRun_natDecChars]
    rfl

theorem intDec_natCast (p : Nat) : intDec (p : Int) = natDec p := by
  unfold intDec
  rw [if_neg (by omega : ¬ (p : Int) < 0)]
  norm_num

/-! ### Splitting the callback token -/

theorem splitOn_append_sep (xs ys : List Char) (h : '_' ∉ xs) :
    (xs ++ '_' :: ys).splitOn '_' = xs :: ys.splitOn '_' := by
  have hx : ∀ x ∈ xs, ¬ ((x == '_') = true) := by
    intro x hxm hbe
    exact h ((beq_iff_eq.1 hbe) ▸ hxm)
  unfold List.splitOn
  exact List.splitOnP_first _ _ hx '_' (by simp) ys

theorem splitOn_no_sep (xs : List Char) (h : '_' ∉ xs) : xs.splitOn '_' = [xs] := by
  have hx : ∀ x ∈ xs, ¬ ((x == '_') = true) := by
    intro x hxm hbe
    exact h ((beq_iff_eq.1 hbe) ▸ hxm)
  unfold List.splitOn
  exact List.splitOnP_eq_single _ _ hx

theorem string_token_data (ct act pg : String) :
    ("pagination_" ++ ct ++ "_" ++ act ++ "_" ++ pg).data =
      "pagination".data ++ '_' :: (ct.data ++ '_' :: (act.data ++ '_' :: pg.data)) := by
  simp only [String.data_append, List.cons_append, List.append_assoc,
    List.singleton_append, List.nil_append]

theorem pySplit_token (ct act pg : String)
    (h1 : '_' ∉ ct.data) (h2 : '_' ∉ act.data) (h3 : '_' ∉ pg.data) :
    pySplit '_' ("pagination_" ++ ct ++ "_" ++ act ++ "_" ++ pg) =
      ["pagination", ct, act, pg] := by
  unfold pySplit
  rw [string_token_data,
      splitOn_append_sep _ _ (by decide),
      splitOn_append_sep _ _ h1,
      splitOn_append_sep _ _ h2,
      splitOn_no_sep _ h3]
  simp only [List.map, data_asString]
  rfl

theorem natDec_no_underscore (p : Nat) : '_' ∉ (natDec p).data := by
  rw [natDec, asString_data]
  intro hm
  exact (natDecChars_props p '_' hm).2.2.2 rfl

theorem decode_encode (ct act : String) (h1 : '_' ∉ ct.data)
    (h2 : '_' ∉ act.data) (p : Nat) :
    decodePagination (paginationCallbackData ct act (p : Int)) =
      some (ct, act, (p : Int)) := by
  unfold decodePagination paginationCallbackData
  rw [intDec_natCast, pySplit_token ct act (natDec p) h1 h2 (natDec_no_underscore p)]
  show (pyInt (natDec p)).map (fun q => (ct, act, q)) = some (ct, act, (p : Int))
  rw [pyInt_natDec]
  rfl

/-! ### Sorting lemmas -/

theorem length_insertDescBy (key : α → Nat) (a : α) (xs : List α) :
    (insertDescBy key a xs).length = xs.length + 1 := by
  induction xs with
  | nil => rfl
  | cons x xs ih =>
    rw [insertDescBy]
    split
    · simp [ih]
    · simp

theorem length_sortDescBy (key : α → Nat) (xs : List α) :
    (sortDescBy key xs).length = xs.length := by
  induction xs with
  | nil => rfl
  | cons x xs ih =>
    show (insertDescBy key x (sortDescBy key xs)).length = _
    rw [length_insertDescBy, ih, List.length_cons]

theorem mem_insertDescBy (key : α → Nat) (a b : α) (xs : List α) :
    b ∈ insertDescBy key a xs ↔ b = a ∨ b ∈ xs := by
  induction xs with
  | nil => simp [insertDescBy]
  | cons x xs ih =>
    rw [insertDescBy]
    split
    · simp only [List.mem_cons, ih]
      tauto
    · simp only [List.mem_cons]

theorem mem_sortDescBy (key : α → Nat) (a : α) (xs : List α) :
    a ∈ sortDescBy key xs ↔ a ∈ xs := by
  induction xs with
  | nil => simp [sortDescBy]
  | cons x xs ih =>
    show a ∈ insertDescBy key x (sortDescBy key xs) ↔ _
    rw [mem_insertDescBy]
    simp [ih]

theorem pairwise_insertDescBy (key : α → Nat) (a : α) (xs : List α)
    (h : xs.Pairwise (fun x y => key y ≤ key x)) :
    (insertDescBy key a xs).Pairwise (fun x y => key y ≤ key x) := by
  induction xs with
  | nil => simp [insertDescBy]
  | cons x xs ih =>
    rw [List.pairwise_cons] at h
    rw [insertDescBy]
    split
    · next hc =>
      rw [List.pairwise_cons]
      refine ⟨?_, ih h.2⟩
      intro y hy
      rcases (mem_insertDescBy key a y xs).1 hy with h1 | h1
      · exact h1 ▸ hc
      · exact h.1 y h1
    · next hc =>
      rw [List.pairwise_cons]
      refine ⟨?_, List.pairwise_cons.2 h⟩
      intro y hy
      rcases List.mem_cons.1 hy with h1 | h1
      · exact h1 ▸ le_of_not_le hc
      · exact le_trans (h.1 y h1) (le_of_not_le hc)

theorem pairwise_sortDescBy (key : α → Nat) (xs : List α) :
    (sortDescBy key xs).Pairwise (fun x y => key y ≤ key x) := by
  induction xs with
  | nil => simp [sortDescBy]
  | cons x xs ih => exact pairwise_insertDescBy key x _ ih

/-! ### The claims -/

/-- Claim C1: for every total_count ≥ 0 and per_page ≥ 1, `get_user_history`
and `get_user_stats` compute `total_pages = max(1, ceil(total_count /
per_page))` (the count being the user's row count, resp. distinct-group
count); with zero history rows, page 1 is an empty item list together with
`total_pages = 1`, never 0. -/
theorem claim_C1 (table : List SearchHistory) (uid : Nat) (page : Int)
    (per_page : Nat) (hp : 1 ≤ per_page) :
    (get_user_history table uid page per_page).2 =
      max 1 ⌈((table.filter (fun r => r.user_id = uid)).length : ℚ) / (per_page : ℚ)⌉₊ ∧
    (get_user_stats table uid page per_page).2 =
      max 1 ⌈((statGroups (table.filter (fun r => r.user_id = uid))).length : ℚ) /
        (per_page : ℚ)⌉₊ ∧
    get_user_history [] uid 1 per_page = ([], 1) ∧
    get_user_stats [] uid 1 per_page = ([], 1) := by
  have h1 : totalPagesOf 0 per_page = 1 := by
    unfold totalPagesOf
    rw [Nat.zero_add, Nat.div_eq_of_lt (by omega)]
    decide
  refine ⟨totalPagesOf_eq_ceil _ _ hp, totalPagesOf_eq_ceil _ _ hp, ?_, ?_⟩
  · show (sqlWindow _ _ _, totalPagesOf (List.length _) per_page) = ([], 1)
    simp [sqlWindow, sortDescBy, h1]
  · show (List.map _ (sqlWindow _ _ _), totalPagesOf (List.length _) per_page) = ([], 1)
    simp [sqlWindow, sortDescBy, statGroups, firstKeys, firstKeysAux, h1]

theorem claim_C1_w :
    1 ≤ 5 ∧
    ((get_user_history tableDup 1 1 5).2 =
      max 1 ⌈((tableDup.filter (fun r => r.user_id = 1)).length : ℚ) / (5 : ℚ)⌉₊ ∧
     (get_user_stats tableDup 1 1 5).2 =
      max 1 ⌈((statGroups (tableDup.filter (fun r => r.user_id = 1))).length : ℚ) /
        (5 : ℚ)⌉₊ ∧
     get_user_history [] 1 1 5 = ([], 1) ∧
     get_user_stats [] 1 1 5 = ([], 1)) :=
  ⟨by decide, claim_C1 tableDup 1 1 5 (by decide)⟩

/-- Claim C2: for every content kind in \x7bhistory, stats\x7d, direction in
\x7bnext, prev\x7d and positive page, encoding the triple as the 4-segment
underscore-joined token and decoding it back (split on the underscore,
parse the 4th segment as an integer) recovers exactly the original
(content_kind, direction, current_page). -/
theorem claim_C2 (ct dir : String) (hct : ct = "history" ∨ ct = "stats")
    (hdir : dir = "next" ∨ dir = "prev") (p : Nat) (hp : 1 ≤ p) :
    decodePagination (paginationCallbackData ct dir (p : Int)) =
      some (ct, dir, (p : Int)) := by
  rcases hct with h | h <;> rcases hdir with h2 | h2 <;> subst h <;> subst h2 <;>
    exact decode_encode _ _ (by decide) (by decide) p

theorem claim_C2_w :
    1 ≤ 3 ∧
    decodePagination (paginationCallbackData "history" "next" (3 : Int)) =
      some ("history", "next", (3 : Int)) :=
  ⟨by decide, claim_C2 "history" "next" (Or.inl rfl) (Or.inl rfl) 3 (by decide)⟩

/-- Claim C8: for every current_page ≥ 1 and total_pages ≥ 1, the keyboard
contains no "previous" button iff current_page = 1 and no "next" button iff
current_page is at or beyond total_pages. -/
theorem claim_C8 (ct : String) (cp tp : Int) (hcp : 1 ≤ cp) (htp : 1 ≤ tp) :
    (cp = 1 → hasPrevButton (get_pagination_keyboard ct cp tp) = false) ∧
    (1 < cp → hasPrevButton (get_pagination_keyboard ct cp tp) = true) ∧
    (tp ≤ cp → hasNextButton (get_pagination_keyboard ct cp tp) = false) ∧
    (cp < tp → hasNextButton (get_pagination_keyboard ct cp tp) = true) := by
  unfold get_pagination_keyboard hasPrevButton hasNextButton
  refine ⟨?_, ?_, ?_, ?_⟩ <;> intro h
  · rw [if_neg (by omega : ¬ cp > 1)]
    by_cases h2 : cp < tp
    · rw [if_pos h2]; simp
    · rw [if_neg h2]; simp
  · rw [if_pos (by omega : cp > 1)]
    by_cases h2 : cp < tp
    · rw [if_pos h2]; simp
    · rw [if_neg h2]; simp
  · rw [if_neg (by omega : ¬ cp < tp)]
    by_cases h2 : cp > 1
    · rw [if_pos h2]; simp
    · rw [if_neg h2]; simp
  · rw [if_pos (by omega : cp < tp)]
    by_cases h2 : cp > 1
    · rw [if_pos h2]; simp
    · rw [if_neg h2]; simp

theorem claim_C8_w :
    (1 : Int) ≤ 2 ∧ (1 : Int) ≤ 3 ∧
    ((2 : Int) = 1 → hasPrevButton (get_pagination_keyboard "history" 2 3) = false) ∧
    ((1 : Int) < 2 → hasPrevButton (get_pagination_keyboard "history" 2 3) = true) ∧
    ((3 : Int) ≤ 2 → hasNextButton (get_pagination_keyboard "history" 2 3) = false) ∧
    ((2 : Int) < 3 → hasNextButton (get_pagination_keyboard "history" 2 3) = true) :=
  ⟨by decide, by decide,
    (claim_C8 "history" 2 3 (by decide) (by decide)).1,
    (claim_C8 "history" 2 3 (by decide) (by decide)).2.1,
    (claim_C8 "history" 2 3 (by decide) (by decide)).2.2.1,
    (claim_C8 "history" 2 3 (by decide) (by decide)).2.2.2⟩

/-- Claim C6: with 12 history rows and per_page = 5, page 1 serves the five
most recent rows (descending id) with total_pages = 3, page 3 the
remaining two, page 4 an empty list with total_pages still 3; in general
page p serves the window [(p-1)*per_page, p*per_page) of the
id-descending sequence. -/
theorem claim_C6 :
    get_user_history table12 1 1 5 =
      ([histRow 12, histRow 11, histRow 10, histRow 9, histRow 8], 3) ∧
    get_user_history table12 1 3 5 = ([histRow 2, histRow 1], 3) ∧
    get_user_history table12 1 4 5 = ([], 3) ∧
    ∀ (t : List SearchHistory) (uid p per : Nat), 1 ≤ p →
      (get_user_history t uid (p : Int) per).1 =
        ((sortDescBy (fun r => r.id) (t.filter (fun r => r.user_id = uid))).drop
          ((p - 1) * per)).take per := by
  refine ⟨by decide, by decide, by decide, ?_⟩
  intro t uid p per hp
  show sqlWindow (((p : Int) - 1) * (per : Int)) per _ = _
  unfold sqlWindow
  have hcast : ((p : Int) - 1) * (per : Int) = (((p - 1) * per : Nat) : Int) := by
    push_cast [hp]
    ring
  rw [hcast, Int.toNat_natCast]

theorem claim_C6_w :
    1 ≤ 1 ∧
    (get_user_history table12 1 ((1 : Nat) : Int) 5).1 =
      ((sortDescBy (fun r => r.id) (table12.filter (fun r => r.user_id = 1))).drop
        ((1 - 1) * 5)).take 5 :=
  ⟨le_refl 1, claim_C6.2.2.2 table12 1 1 5 (le_refl 1)⟩

/-- A token the codec cannot decode makes `handle_pagination` exit before
the user lookup: with the segment count wrong it logs and returns
`decodeError`; with 4 segments but an unparseable page it logs and
returns `pageParseError`.  Neither exit reads the store. -/
theorem handle_pagination_decode_none (s : String) (hs : decodePagination s = none)
    (u : Option Nat) (t : List SearchHistory) :
    handle_pagination true (some s) u t =
      if (pySplit '_' s).length = 4 then .pageParseError else .decodeError := by
  have hbase : handle_pagination true (some s) u t = handlePagParts (pySplit '_' s) u t := rfl
  rw [hbase]
  unfold decodePagination at hs
  match hsp : pySplit '_' s with
  | [] => rfl
  | [a] => rfl
  | [a, b] => rfl
  | [a, b, c] => rfl
  | a :: b :: c :: d :: e :: rest => rfl
  | [a, b, c, d] =>
    rw [hsp] at hs
    have hpi : pyInt d = none := by
      cases hpi : pyInt d with
      | none => rfl
      | some v =>
        simp only [hpi] at hs
        simp at hs
    simp only [handlePagParts, hpi, List.length_cons, List.length_nil]
    rfl

/-- Claim C3 (amended): a token whose underscore split does not give exactly
4 segments, or whose 4th segment does not parse as an integer, makes
`handle_pagination` a silently-logged no-op: no store read (the outcome is
independent of store and user), no message edit, and — unlike the claim —
NO user-visible transient notice; positivity of the page is not checked.
The `int()` failure is caught as `ValueError`, so no numeric exception
escapes. -/
theorem claim_C3 (s : String) (hs : decodePagination s = none)
    (u : Option Nat) (t : List SearchHistory) :
    (handle_pagination true (some s) u t = .decodeError ∨
     handle_pagination true (some s) u t = .pageParseError) ∧
    transientNotice (handle_pagination true (some s) u t) = none ∧
    (∀ text kb, handle_pagination true (some s) u t ≠ .edit text kb) ∧
    (∀ u2 t2, handle_pagination true (some s) u t =
      handle_pagination true (some s) u2 t2) := by
  have h := handle_pagination_decode_none s hs u t
  by_cases h4 : (pySplit '_' s).length = 4
  · rw [if_pos h4] at h
    refine ⟨Or.inr h, by rw [h]; rfl, ?_, ?_⟩
    · intro text kb
      rw [h]
      intro hc
      exact PagOutcome.noConfusion hc
    · intro u2 t2
      rw [h, handle_pagination_decode_none s hs u2 t2, if_pos h4]
  · rw [if_neg h4] at h
    refine ⟨Or.inl h, by rw [h]; rfl, ?_, ?_⟩
    · intro text kb
      rw [h]
      intro hc
      exact PagOutcome.noConfusion hc
    · intro u2 t2
      rw [h, handle_pagination_decode_none s hs u2 t2, if_neg h4]

theorem claim_C3_w :
    decodePagination "pagination_bad" = none ∧
    (handle_pagination true (some "pagination_bad") (some 1) [histRow 1] = .decodeError ∨
     handle_pagination true (some "pagination_bad") (some 1) [histRow 1] = .pageParseError) :=
  ⟨by decide,
   (claim_C3 "pagination_bad" (by decide) (some 1) [histRow 1]).1⟩

/-- Claim C3 is refuted on the code as stated: the malformed token
"pagination_bad" is dropped with NO user-visible transient notice, and the
token "pagination_history_next_0" — whose 4th segment does not parse as a
POSITIVE integer — is not treated as a decode error at all: the handler
fetches the store and edits the message. -/
theorem claim_C3_cex :
    handle_pagination true (some "pagination_bad") (some 1) [histRow 1] = .decodeError ∧
    transientNotice .decodeError = none ∧
    handle_pagination true (some "pagination_history_next_0") (some 1) [histRow 1] =
      .edit (format_history_message [histRow 1] 1 1)
        (get_pagination_keyboard "history" 1 1) := by
  refine ⟨by decide, rfl, by decide⟩

/-- Claim C10: a well-formed 4-segment token whose direction segment is
anything other than "next" (empty and arbitrary strings included) is
decoded successfully and handled exactly like direction "prev" (new_page =
current_page - 1); the direction segment is never validated. -/
theorem claim_C10 (ct d : String) (hct : '_' ∉ ct.data) (hd : '_' ∉ d.data)
    (hne : d ≠ "next") (p : Nat) (u : Option Nat) (t : List SearchHistory) :
    decodePagination (paginationCallbackData ct d (p : Int)) =
      some (ct, d, (p : Int)) ∧
    handle_pagination true (some (paginationCallbackData ct d (p : Int))) u t =
      handle_pagination true (some (paginationCallbackData ct "prev" (p : Int))) u t := by
  refine ⟨decode_encode ct d hct hd p, ?_⟩
  have k1 : pySplit '_' (paginationCallbackData ct d (p : Int)) =
      ["pagination", ct, d, natDec p] := by
    rw [paginationCallbackData, intDec_natCast]
    exact pySplit_token _ _ _ hct hd (natDec_no_underscore p)
  have k2 : pySplit '_' (paginationCallbackData ct "prev" (p : Int)) =
      ["pagination", ct, "prev", natDec p] := by
    rw [paginationCallbackData, intDec_natCast]
    exact pySplit_token _ _ _ hct (by decide) (natDec_no_underscore p)
  show handlePagParts (pySplit '_' ((some (paginationCallbackData ct d (p : Int))).getD "")) u t =
    handlePagParts (pySplit '_' ((some (paginationCallbackData ct "prev" (p : Int))).getD "")) u t
  simp only [Option.getD_some]
  rw [k1, k2]
  simp only [handlePagParts, pyInt_natDec]
  cases u with
  | none => rfl
  | some uid =>
    rw [if_neg hne, if_neg (by decide : ¬ ("prev" : String) = "next")]

theorem claim_C10_w :
    '_' ∉ ("history" : String).data ∧ '_' ∉ ("" : String).data ∧
    ("" : String) ≠ "next" ∧
    (decodePagination (paginationCallbackData "history" "" ((2 : Nat) : Int)) =
      some ("history", "", ((2 : Nat) : Int)) ∧
    handle_pagination true (some (paginationCallbackData "history" "" ((2 : Nat) : Int)))
        (some 1) [histRow 1] =
      handle_pagination true (some (paginationCallbackData "history" "prev" ((2 : Nat) : Int)))
        (some 1) [histRow 1]) :=
  ⟨by decide, by decide, by decide,
   claim_C10 "history" "" (by decide) (by decide) (by decide) 2 (some 1) [histRow 1]⟩

/-- Reduction of `handle_pagination` on an encoder-built history token. -/
theorem handle_pagination_history_token (dirStr : String) (hd : '_' ∉ dirStr.data)
    (p : Nat) (uid : Nat) (t : List SearchHistory) :
    handle_pagination true (some (paginationCallbackData "history" dirStr (p : Int)))
        (some uid) t =
      (if (get_user_history t uid
            (if dirStr = "next" then (p : Int) + 1 else (p : Int) - 1) 5).1.isEmpty ∧
          0 < (get_user_history t uid
            (if dirStr = "next" then (p : Int) + 1 else (p : Int) - 1) 5).2 then
        PagOutcome.emptyContent
      else
        .edit
          (format_history_message
            (get_user_history t uid
              (if dirStr = "next" then (p : Int) + 1 else (p : Int) - 1) 5).1
            (if dirStr = "next" then (p : Int) + 1 else (p : Int) - 1)
            (get_user_history t uid
              (if dirStr = "next" then (p : Int) + 1 else (p : Int) - 1) 5).2)
          (get_pagination_keyboard "history"
            (if dirStr = "next" then (p : Int) + 1 else (p : Int) - 1)
            ((get_user_history t uid
              (if dirStr = "next" then (p : Int) + 1 else (p : Int) - 1) 5).2 : Int))) := by
  have k1 : pySplit '_' (paginationCallbackData "history" dirStr (p : Int)) =
      ["pagination", "history", dirStr, natDec p] := by
    rw [paginationCallbackData, intDec_natCast]
    exact pySplit_token _ _ _ (by decide) hd (natDec_no_underscore p)
  show handlePagParts
      (pySplit '_' ((some (paginationCallbackData "history" dirStr (p : Int))).getD ""))
      (some uid) t = _
  simp only [Option.getD_some]
  rw [k1]
  simp only [handlePagParts, pyInt_natDec]
  simp

/-- Reduction of `handle_pagination` on an encoder-built stats token. -/
theorem handle_pagination_stats_token (dirStr : String) (hd : '_' ∉ dirStr.data)
    (p : Nat) (uid : Nat) (t : List SearchHistory) :
    handle_pagination true (some (paginationCallbackData "stats" dirStr (p : Int)))
        (some uid) t =
      (if (get_user_stats t uid
            (if dirStr = "next" then (p : Int) + 1 else (p : Int) - 1) 5).1.isEmpty ∧
          0 < (get_user_stats t uid
            (if dirStr = "next" then (p : Int) + 1 else (p : Int) - 1) 5).2 then
        PagOutcome.emptyContent
      else
        .edit
          (format_stats_message
            (get_user_stats t uid
              (if dirStr = "next" then (p : Int) + 1 else (p : Int) - 1) 5).1
            (if dirStr = "next" then (p : Int) + 1 else (p : Int) - 1)
            (get_user_stats t uid
              (if dirStr = "next" then (p : Int) + 1 else (p : Int) - 1) 5).2)
          (get_pagination_keyboard "stats"
            (if dirStr = "next" then (p : Int) + 1 else (p : Int) - 1)
            ((get_user_stats t uid
              (if dirStr = "next" then (p : Int) + 1 else (p : Int) - 1) 5).2 : Int))) := by
  have k1 : pySplit '_' (paginationCallbackData "stats" dirStr (p : Int)) =
      ["pagination", "stats", dirStr, natDec p] := by
    rw [paginationCallbackData, intDec_natCast]
    exact pySplit_token _ _ _ (by decide) hd (natDec_no_underscore p)
  show handlePagParts
      (pySplit '_' ((some (paginationCallbackData "stats" dirStr (p : Int))).getD ""))
      (some uid) t = _
  simp only [Option.getD_some]
  rw [k1]
  simp only [handlePagParts, pyInt_natDec]
  simp

/-- Any page strictly beyond the history page count serves an empty window. -/
theorem history_window_empty (t : List SearchHistory) (uid : Nat) (q : Int)
    (hq : ((get_user_history t uid 1 5).2 : Int) < q) :
    (get_user_history t uid q 5).1 = [] := by
  have hc := le_mul_totalPagesOf (t.filter (fun r => r.user_id = uid)).length 5 (by omega)
  have hq2 : ((totalPagesOf (t.filter (fun r => r.user_id = uid)).length 5 : Nat) : Int) < q := hq
  show sqlWindow ((q - 1) * (5 : Int)) 5
    (sortDescBy (fun r => r.id) (t.filter (fun r => r.user_id = uid))) = []
  unfold sqlWindow
  have hlen : (sortDescBy (fun r => r.id) (t.filter (fun r => r.user_id = uid))).length ≤
      ((q - 1) * 5).toNat := by
    rw [length_sortDescBy]
    omega
  rw [List.drop_eq_nil_of_le hlen, List.take_nil]

/-- Any page strictly beyond the stats page count serves an empty window. -/
theorem stats_window_empty (t : List SearchHistory) (uid : Nat) (q : Int)
    (hq : ((get_user_stats t uid 1 5).2 : Int) < q) :
    (get_user_stats t uid q 5).1 = [] := by
  have hc := le_mul_totalPagesOf
    (statGroups (t.filter (fun r => r.user_id = uid))).length 5 (by omega)
  have hq2 : ((totalPagesOf
      (statGroups (t.filter (fun r => r.user_id = uid))).length 5 : Nat) : Int) < q := hq
  show (sqlWindow ((q - 1) * (5 : Int)) 5
    (sortDescBy (fun g => g.count) (statGroups (t.filter (fun r => r.user_id = uid))))).map
      statRowOfGroup = []
  unfold sqlWindow
  have hlen : (sortDescBy (fun g => g.count)
      (statGroups (t.filter (fun r => r.user_id = uid)))).length ≤ ((q - 1) * 5).toNat := by
    rw [length_sortDescBy]
    omega
  rw [List.drop_eq_nil_of_le hlen, List.take_nil, List.map_nil]

/-- Claim C4: a pagination event whose requested page fetch returns an
empty item list (total_pages is always > 0) gets a transient alert and no
edit; a non-empty fetch gets an in-place edit with the new text and a
recomputed button set; in particular navigating "next" from the last page
always ends in the alert, never in an edit of an empty page. -/
theorem claim_C4 (dir : String) (hdir : dir = "next" ∨ dir = "prev")
    (cp : Nat) (uid : Nat) (t : List SearchHistory) :
    ((get_user_history t uid
        (if dir = "next" then (cp : Int) + 1 else (cp : Int) - 1) 5).1 = [] →
      0 < (get_user_history t uid
        (if dir = "next" then (cp : Int) + 1 else (cp : Int) - 1) 5).2 ∧
      handle_pagination true (some (paginationCallbackData "history" dir (cp : Int)))
        (some uid) t = .emptyContent) ∧
    ((get_user_history t uid
        (if dir = "next" then (cp : Int) + 1 else (cp : Int) - 1) 5).1 ≠ [] →
      handle_pagination true (some (paginationCallbackData "history" dir (cp : Int)))
          (some uid) t =
        .edit
          (format_history_message
            (get_user_history t uid
              (if dir = "next" then (cp : Int) + 1 else (cp : Int) - 1) 5).1
            (if dir = "next" then (cp : Int) + 1 else (cp : Int) - 1)
            (get_user_history t uid
              (if dir = "next" then (cp : Int) + 1 else (cp : Int) - 1) 5).2)
          (get_pagination_keyboard "history"
            (if dir = "next" then (cp : Int) + 1 else (cp : Int) - 1)
            ((get_user_history t uid
              (if dir = "next" then (cp : Int) + 1 else (cp : Int) - 1) 5).2 : Int))) ∧
    ((get_user_stats t uid
        (if dir = "next" then (cp : Int) + 1 else (cp : Int) - 1) 5).1 = [] →
      0 < (get_user_stats t uid
        (if dir = "next" then (cp : Int) + 1 else (cp : Int) - 1) 5).2 ∧
      handle_pagination true (some (paginationCallbackData "stats" dir (cp : Int)))
        (some uid) t = .emptyContent) ∧
    ((get_user_stats t uid
        (if dir = "next" then (cp : Int) + 1 else (cp : Int) - 1) 5).1 ≠ [] →
      handle_pagination true (some (paginationCallbackData "stats" dir (cp : Int)))
          (some uid) t =
        .edit
          (format_stats_message
            (get_user_stats t uid
              (if dir = "next" then (cp : Int) + 1 else (cp : Int) - 1) 5).1
            (if dir = "next" then (cp : Int) + 1 else (cp : Int) - 1)
            (get_user_stats t uid
              (if dir = "next" then (cp : Int) + 1 else (cp : Int) - 1) 5).2)
          (get_pagination_keyboard "stats"
            (if dir = "next" then (cp : Int) + 1 else (cp : Int) - 1)
            ((get_user_stats t uid
              (if dir = "next" then (cp : Int) + 1 else (cp : Int) - 1) 5).2 : Int))) ∧
    (dir = "next" → cp = (get_user_history t uid 1 5).2 →
      handle_pagination true (some (paginationCallbackData "history" dir (cp : Int)))
        (some uid) t = .emptyContent) ∧
    (dir = "next" → cp = (get_user_stats t uid 1 5).2 →
      handle_pagination true (some (paginationCallbackData "stats" dir (cp : Int)))
        (some uid) t = .emptyContent) := by
  have hd : '_' ∉ dir.data := by
    rcases hdir with h | h <;> subst h <;> decide
  have hh := handle_pagination_history_token dir hd cp uid t
  have hst := handle_pagination_stats_token dir hd cp uid t
  have hist_empty :
      (get_user_history t uid
        (if dir = "next" then (cp : Int) + 1 else (cp : Int) - 1) 5).1 = [] →
      handle_pagination true (some (paginationCallbackData "history" dir (cp : Int)))
        (some uid) t = .emptyContent := by
    intro he
    rw [hh, if_pos ⟨by rw [List.isEmpty_iff]; exact he, one_le_totalPagesOf _ 5⟩]
  have stats_empty :
      (get_user_stats t uid
        (if dir = "next" then (cp : Int) + 1 else (cp : Int) - 1) 5).1 = [] →
      handle_pagination true (some (paginationCallbackData "stats" dir (cp : Int)))
        (some uid) t = .emptyContent := by
    intro he
    rw [hst, if_pos ⟨by rw [List.isEmpty_iff]; exact he, one_le_totalPagesOf _ 5⟩]
  refine ⟨fun he => ⟨one_le_totalPagesOf _ 5, hist_empty he⟩, ?_,
    fun he => ⟨one_le_totalPagesOf _ 5, stats_empty he⟩, ?_, ?_, ?_⟩
  · intro hne
    rw [hh, if_neg (fun hcond => hne (List.isEmpty_iff.1 hcond.1))]
  · intro hne
    rw [hst, if_neg (fun hcond => hne (List.isEmpty_iff.1 hcond.1))]
  · intro h1 h2
    refine hist_empty ?_
    subst h1
    rw [if_pos rfl]
    exact history_window_empty t uid _ (by omega)
  · intro h1 h2
    refine stats_empty ?_
    subst h1
    rw [if_pos rfl]
    exact stats_window_empty t uid _ (by omega)

theorem claim_C4_w :
    (("next" : String) = "next" ∨ ("next" : String) = "prev") ∧
    (get_user_history []
      1 (if ("next" : String) = "next" then ((1 : Nat) : Int) + 1
         else ((1 : Nat) : Int) - 1) 5).1 = [] ∧
    (0 < (get_user_history []
        1 (if ("next" : String) = "next" then ((1 : Nat) : Int) + 1
           else ((1 : Nat) : Int) - 1) 5).2 ∧
     handle_pagination true
        (some (paginationCallbackData "history" "next" ((1 : Nat) : Int)))
        (some 1) [] = .emptyContent) :=
  ⟨Or.inl rfl, by decide,
   (claim_C4 "next" (Or.inl rfl) 1 1 []).1 (by decide)⟩

theorem pyRound1_half15 : pyRound1 (15 / 2 : ℚ) = 15 / 2 := by
  unfold pyRound1 roundHalfEven
  have h : (15 / 2 : ℚ) * 10 = 75 := by norm_num
  rw [h]
  norm_num

theorem stats_scenario :
    get_user_stats tableDup 1 1 5 =
      ([{ movie_id := "325", movie_title := "T", movie_url := some "u",
          avg_rating := some (15 / 2 : ℚ), search_count := 2 }], 1) := by
  simp only [get_user_stats, tableDup, ratedRow, statGroups, statKey, firstKeys,
    firstKeysAux, sortDescBy, insertDescBy, sqlWindow, statRowOfGroup, totalPagesOf,
    List.filter, List.filterMap, List.foldr, List.map, List.length, List.drop,
    List.take, List.sum]
  norm_num [pyRound1_half15]

/-- Claim C7 (amended): `get_user_stats` groups the user's rows by distinct
(movie id, title, URL), orders groups by descending occurrence count, and
reports each group's occurrence count and its average rating rounded to
one decimal place — the average being reported absent when no ratings are
present in the group OR (falsy `if row.avg_rating`) when the average is
exactly 0.0; two rows for one movie rated 7.0 and 8.0 give one group with
search_count = 2 and avg_rating = 7.5. -/
theorem claim_C7 (t : List SearchHistory) (uid : Nat) (page : Int) (per : Nat) :
    get_user_stats tableDup 1 1 5 =
      ([{ movie_id := "325", movie_title := "T", movie_url := some "u",
          avg_rating := some (15 / 2 : ℚ), search_count := 2 }], 1) ∧
    (∀ g ∈ (get_user_stats t uid page per).1,
      ∃ k ∈ firstKeys (t.filter (fun r => r.user_id = uid)),
        g = statRowOfGroup
          { key := k
            avg :=
              if (((t.filter (fun r => r.user_id = uid)).filter
                    (fun r => statKey r = k)).filterMap
                    (fun r => r.movie_rating)).isEmpty then none
              else some ((((t.filter (fun r => r.user_id = uid)).filter
                  (fun r => statKey r = k)).filterMap (fun r => r.movie_rating)).sum /
                (((((t.filter (fun r => r.user_id = uid)).filter
                  (fun r => statKey r = k)).filterMap
                    (fun r => r.movie_rating)).length : Nat) : ℚ))
            count := ((t.filter (fun r => r.user_id = uid)).filter
              (fun r => statKey r = k)).length }) ∧
    ((get_user_stats t uid page per).1.map (fun g => g.search_count)).Pairwise
      (fun a b => b ≤ a) ∧
    (∀ gr : RawGroup,
      ((statRowOfGroup gr).avg_rating = none ↔ (gr.avg = none ∨ gr.avg = some 0)) ∧
      (∀ a : ℚ, gr.avg = some a → ¬ a = 0 →
        (statRowOfGroup gr).avg_rating = some (pyRound1 a))) := by
  refine ⟨stats_scenario, ?_, ?_, ?_⟩
  · intro g hg
    rcases List.mem_map.1 hg with ⟨gr, hgr, rfl⟩
    have hgr2 : gr ∈ sortDescBy (fun x => x.count)
        (statGroups (t.filter (fun r => r.user_id = uid))) :=
      List.drop_subset _ _ (List.take_subset _ _ hgr)
    have hgr3 : gr ∈ statGroups (t.filter (fun r => r.user_id = uid)) :=
      (mem_sortDescBy _ _ _).1 hgr2
    rcases List.mem_map.1 hgr3 with ⟨k, hk, rfl⟩
    exact ⟨k, hk, rfl⟩
  · have h1 : (get_user_stats t uid page per).1.map (fun g => g.search_count) =
        (sqlWindow ((page - 1) * (per : Int)) per (sortDescBy (fun x => x.count)
          (statGroups (t.filter (fun r => r.user_id = uid))))).map
          (fun gr => gr.count) := by
      show ((sqlWindow _ _ _).map statRowOfGroup).map (fun g => g.search_count) = _
      rw [List.map_map]
      rfl
    rw [h1, List.pairwise_map]
    have hsub : List.Sublist
        (sqlWindow ((page - 1) * (per : Int)) per (sortDescBy (fun x : RawGroup => x.count)
          (statGroups (t.filter (fun r => r.user_id = uid)))))
        (sortDescBy (fun x : RawGroup => x.count)
          (statGroups (t.filter (fun r => r.user_id = uid)))) :=
      (List.take_sublist _ _).trans (List.drop_sublist _ _)
    exact (pairwise_sortDescBy (fun x : RawGroup => x.count) _).sublist hsub
  · intro gr
    obtain ⟨k, avg, cnt⟩ := gr
    constructor
    · cases avg with
      | none => simp [statRowOfGroup]
      | some a =>
        by_cases ha : a = 0
        · subst ha
          simp [statRowOfGroup]
        · simp [statRowOfGroup, ha]
    · intro a ha hne
      cases avg with
      | none => exact absurd ha (by simp)
      | some b =>
        have hab : b = a := by
          injection ha
        subst hab
        simp [statRowOfGroup, hne]

theorem claim_C7_cex :
    (get_user_stats tableZero 1 1 5).1 =
      [{ movie_id := "325", movie_title := "T", movie_url := some "u",
         avg_rating := none, search_count := 1 }] ∧
    tableZero.filterMap (fun r => r.movie_rating) = [(0 : ℚ)] := by
  constructor
  · simp only [get_user_stats, tableZero, ratedRow, statGroups, statKey, firstKeys,
      firstKeysAux, sortDescBy, insertDescBy, sqlWindow, statRowOfGroup, totalPagesOf,
      List.filter, List.filterMap, List.foldr, List.map, List.length, List.drop,
      List.take, List.sum]
    norm_num
  · decide

theorem claim_C7_w :
    get_user_stats tableDup 1 1 5 =
      ([{ movie_id := "325", movie_title := "T", movie_url := some "u",
          avg_rating := some (15 / 2 : ℚ), search_count := 2 }], 1) ∧
    (statRowOfGroup { key := ("m", "t", none), avg := some 0, count := 1 }).avg_rating =
      none :=
  ⟨(claim_C7 [] 1 1 5).1,
   ((claim_C7 [] 1 1 5).2.2.2
       { key := ("m", "t", none), avg := some 0, count := 1 }).1.2 (Or.inr rfl)⟩

/-- The record loop returns exactly the parseable records, in order, when
every failure in the batch is a KeyError or ValueError. -/
theorem collectMovies_skippable : ∀ (films : List JVal),
    (∀ f ∈ films, errOf (movieInfoOfJson f) = none ∨
      errOf (movieInfoOfJson f) = some .keyError ∨
      errOf (movieInfoOfJson f) = some .valueError) →
    collectMovies films = .ok (films.filterMap (fun f => okOf (movieInfoOfJson f))) := by
  intro films
  induction films with
  | nil => intro _; rfl
  | cons fm rest ih =>
    intro h
    have hrest := ih (fun f hf => h f (List.mem_cons_of_mem fm hf))
    have hfm := h fm (List.mem_cons_self fm rest)
    rw [List.filterMap_cons]
    cases hmi : movieInfoOfJson fm with
    | ok m =>
      simp only [collectMovies, hmi, hrest, okOf]
      rfl
    | error e =>
      rw [hmi] at hfm
      simp only [errOf, Option.some.injEq] at hfm
      rcases hfm with h1 | h1 | h1
      · exact absurd h1 (by simp)
      · subst h1
        simp [collectMovies, hmi, okOf, hrest]
      · subst h1
        simp [collectMovies, hmi, okOf, hrest]

/-- Claim C9 (amended): the catalog client degrades to an empty/absent
result on transport failure (aiohttp.ClientError) and on a non-200 status;
a record whose parse raises KeyError or ValueError (malformed or missing
fields) is skipped while the rest of the batch is returned — but a
malformation that raises a different exception class (e.g. a non-object
record raising TypeError) escapes the client boundary uncaught. -/
theorem claim_C9 (films : List JVal) (status : Nat) (hst : status ≠ 200)
    (body film : JVal)
    (h : ∀ f ∈ films, errOf (movieInfoOfJson f) = none ∨
      errOf (movieInfoOfJson f) = some .keyError ∨
      errOf (movieInfoOfJson f) = some .valueError) :
    search_movie .clientFailure = .ok [] ∧
    get_movie_details .clientFailure = .ok none ∧
    search_movie (.response status body) = .ok [] ∧
    get_movie_details (.response status film) = .ok none ∧
    search_movie (.response 200 (.obj [("docs", .arr films)])) =
      .ok (films.filterMap (fun f => okOf (movieInfoOfJson f))) ∧
    ((errOf (movieInfoOfJson film) = some .keyError ∨
      errOf (movieInfoOfJson film) = some .valueError) →
      get_movie_details (.response 200 film) = .ok none) := by
  refine ⟨rfl, rfl, ?_, ?_, ?_, ?_⟩
  · simp [search_movie, hst]
  · simp [get_movie_details, hst]
  · have hred : search_movie (.response 200 (.obj [("docs", .arr films)])) =
        collectMovies films := rfl
    rw [hred]
    exact collectMovies_skippable films h
  · intro hca
    have hred : get_movie_details (.response 200 film) =
        (match movieInfoOfJson film with
         | .ok m => Except.ok (some m)
         | .error e =>
           if e = .keyError ∨ e = .valueError then Except.ok none
           else .error e) := rfl
    rw [hred]
    cases hmi : movieInfoOfJson film with
    | ok m =>
      rw [hmi] at hca
      rcases hca with h1 | h1 <;> exact absurd h1 (by simp [errOf])
    | error e =>
      rw [hmi] at hca
      simp only [errOf, Option.some.injEq] at hca
      rcases hca with h1 | h1 <;> subst h1 <;> simp

/-- Claim C9 is refuted as stated: a catalog response whose "docs" batch
contains a non-object record makes the per-record access raise TypeError,
which the per-record except clause (KeyError, ValueError) does not catch
and the outer except clause (aiohttp.ClientError) does not catch either —
the exception escapes past the catalog-client boundary. -/
theorem claim_C9_cex :
    search_movie (.response 200 (.obj [("docs", .arr [.num 42])])) =
      .error .typeError := rfl

theorem claim_C9_w :
    (404 : Nat) ≠ 200 ∧
    (∀ f ∈ [goodFilm, badFilm], errOf (movieInfoOfJson f) = none ∨
      errOf (movieInfoOfJson f) = some .keyError ∨
      errOf (movieInfoOfJson f) = some .valueError) ∧
    (search_movie .clientFailure = .ok [] ∧
     get_movie_details .clientFailure = .ok none ∧
     search_movie (.response 404 .null) = .ok [] ∧
     get_movie_details (.response 404 badFilm) = .ok none ∧
     search_movie (.response 200 (.obj [("docs", .arr [goodFilm, badFilm])])) =
       .ok ([goodFilm, badFilm].filterMap (fun f => okOf (movieInfoOfJson f))) ∧
     ((errOf (movieInfoOfJson badFilm) = some .keyError ∨
       errOf (movieInfoOfJson badFilm) = some .valueError) →
       get_movie_details (.response 200 badFilm) = .ok none)) :=
  ⟨by decide, by decide,
   claim_C9 [goodFilm, badFilm] 404 (by decide) .null badFilm (by decide)⟩

/-- Claim C5 (amended): the two callback handlers (movie selection,
pagination) wrap their whole body in `try/except Exception`, so any fault
is caught and converted into a fixed transient alert; the command/text
handler `handle_search` has no such boundary and a fault raised by its
store or catalog call leaves the handler unhandled. -/
theorem claim_C5 (α : Type) (a : α) (e : PyFault) (o : PagOutcome)
    (getUser : Except PyFault Unit) (res : Except PyFault (List MovieInfo))
    (f : PyFault) :
    handle_movie_select_boundary (Except.error e : Except PyFault α) =
      .caught "Произошла ошибка при получении информации о фильме" ∧
    handle_movie_select_boundary (Except.ok a) = .completed a ∧
    handle_pagination_boundary (Except.error e) =
      .caught "Произошла ошибка при обновлении контента" ∧
    handle_pagination_boundary (Except.ok o) = .completed o ∧
    (handle_search true getUser res = .error f ↔
      (getUser = .error f ∨ (getUser = .ok () ∧ res = .error f))) := by
  refine ⟨rfl, rfl, rfl, rfl, ?_⟩
  cases getUser with
  | error g =>
    have hred : handle_search true (Except.error g) res = .error g := rfl
    rw [hred]
    simp
  | ok u =>
    cases u
    cases res with
    | error g =>
      have hred : handle_search true (Except.ok ()) (Except.error g) = .error g := rfl
      rw [hred]
      simp
    | ok ms =>
      have hred : handle_search true (Except.ok ()) (Except.ok ms) =
          (if ms.isEmpty then Except.ok SearchReply.nothingFound
           else Except.ok (SearchReply.selection ((ms.take 5).map (fun m =>
             { text := movieButtonLabel m
               callback_data := "movie_" ++ pyStr m.id })))) := rfl
      rw [hred]
      by_cases hms : ms.isEmpty <;> simp [hms]

theorem claim_C5_cex :
    handle_search true (Except.error (PyFault.fault "db error")) (Except.ok []) =
      Except.error (PyFault.fault "db error") := rfl

theorem claim_C5_w :
    handle_movie_select_boundary (Except.error (PyFault.fault "x") : Except PyFault Unit) =
      .caught "Произошла ошибка при получении информации о фильме" ∧
    handle_movie_select_boundary (Except.ok ()) = .completed () ∧
    handle_pagination_boundary (Except.error (PyFault.fault "x")) =
      .caught "Произошла ошибка при обновлении контента" ∧
    handle_pagination_boundary (Except.ok PagOutcome.decodeError) =
      .completed PagOutcome.decodeError ∧
    (handle_search true (Except.ok ()) (Except.ok []) = .error (PyFault.fault "x") ↔
      ((Except.ok () : Except PyFault Unit) = Except.error (PyFault.fault "x") ∨
       ((Except.ok () : Except PyFault Unit) = Except.ok () ∧
        (Except.ok [] : Except PyFault (List MovieInfo)) =
          .error (PyFault.fault "x")))) :=
  claim_C5 Unit () (PyFault.fault "x") PagOutcome.decodeError
    (Except.ok ()) (Except.ok []) (PyFault.fault "x")

end CinemaBot
